import Mathlib

/-!
Shallow embedding of the Honeypot-as-a-Service platform
(src/analyzer/analyzer.py, src/storage/database.py, src/honeypot/base.py,
src/honeypot/ftp_honeypot.py, src/honeypot/http_honeypot.py).

Python strings are modelled as `List Char`; Python dicts with `.get`
defaults as structures of `Option` fields; the SQLite attack_events table
as a list of rows plus the AUTOINCREMENT counter; the per-connection
socket loops as functions over the list of received chunks.
-/

namespace PyStr

/-- ASCII whitespace recognised by Python `str.strip()` / `str.split()`. -/
def isPyWhitespace (c : Char) : Bool :=
  c = ' ' ∨ c = '\t' ∨ c = '\n' ∨ c = '\r' ∨ c = '\x0b' ∨ c = '\x0c'

/-- Python `str.strip()` with no argument (ASCII whitespace). -/
def strip (s : List Char) : List Char :=
  ((s.dropWhile isPyWhitespace).reverse.dropWhile isPyWhitespace).reverse

/-- Python `str.upper()` (ASCII). -/
def upper (s : List Char) : List Char := s.map Char.toUpper

/-- Python `str.lower()` (ASCII). -/
def lower (s : List Char) : List Char := s.map Char.toLower

/-- Python `a.startswith(b)`. -/
def startsWith (s pre : List Char) : Bool := pre.isPrefixOf s

/-- Python `b in a` (substring containment). -/
def containsSub : List Char → List Char → Bool
  | [], sub => sub.isEmpty
  | c :: rest, sub => sub.isPrefixOf (c :: rest) || containsSub rest sub

end PyStr

namespace Analyzer

/-- `_MEDIUM_THRESHOLD` in src/analyzer/analyzer.py. -/
def MEDIUM_THRESHOLD : Nat := 3

/-- `_HIGH_THRESHOLD` in src/analyzer/analyzer.py. -/
def HIGH_THRESHOLD : Nat := 10

/-- `_CRITICAL_THRESHOLD` in src/analyzer/analyzer.py. -/
def CRITICAL_THRESHOLD : Nat := 25

/-- `_BRUTE_FORCE_TYPES` in src/analyzer/analyzer.py. -/
def BRUTE_FORCE_TYPES : List String := ["SSH_BRUTE_FORCE", "FTP_BRUTE_FORCE"]

/-- `_RECON_TYPES` in src/analyzer/analyzer.py. -/
def RECON_TYPES : List String := ["HTTP_PROBE"]

/-- A `collections.defaultdict(int)` keyed by strings: missing keys read as 0. -/
def lookup0 : List (String × Nat) → String → Nat
  | [], _ => 0
  | (k, v) :: rest, key => if k = key then v else lookup0 rest key

/-- `d[key] += 1` on a `defaultdict(int)`. -/
def bump : List (String × Nat) → String → List (String × Nat)
  | [], key => [(key, 1)]
  | (k, v) :: rest, key =>
    if k = key then (k, v + 1) :: rest else (k, v) :: bump rest key

/-- The mutable state of `AttackAnalyzer`: `_attack_counts` (keyed by IP),
`_type_counts`, `_threat_counts`. -/
structure AnalyzerState where
  attackCounts : List (String × Nat)
  typeCounts : List (String × Nat)
  threatCounts : List (String × Nat)
deriving Repr, DecidableEq

/-- The freshly constructed `AttackAnalyzer` (all defaultdicts empty). -/
def initState : AnalyzerState := ⟨[], [], []⟩

/-- The event dict as consumed by `analyze_attack` via
`event_dict.get("attacker_ip", "unknown")` and
`event_dict.get("attack_type", "UNKNOWN")`: both keys may be absent. -/
structure EventA where
  attackerIp : Option String
  attackType : Option String
deriving Repr, DecidableEq

/-- The dictionary returned by `analyze_attack`. -/
structure Analysis where
  threatLevel : String
  attackPattern : String
  recommendations : List String
deriving Repr, DecidableEq

/-- `AttackAnalyzer._compute_threat_level` (src/analyzer/analyzer.py:98-106). -/
def computeThreatLevel (history : Nat) (attackType : String) : String :=
  if history ≥ CRITICAL_THRESHOLD then "CRITICAL"
  else if history ≥ HIGH_THRESHOLD then "HIGH"
  else if history ≥ MEDIUM_THRESHOLD ∨ attackType ∈ BRUTE_FORCE_TYPES then "MEDIUM"
  else "LOW"

/-- `AttackAnalyzer._detect_pattern` (src/analyzer/analyzer.py:108-114). -/
def detectPattern (attackType : String) : String :=
  if attackType ∈ BRUTE_FORCE_TYPES then "BRUTE_FORCE"
  else if attackType ∈ RECON_TYPES then "RECONNAISSANCE"
  else "EXPLOIT_ATTEMPT"

/-- `AttackAnalyzer._build_recommendations` (src/analyzer/analyzer.py:116-130);
the f-string interpolating the IP is modelled by concatenation. -/
def buildRecommendations (threatLevel attackPattern ip : String) : List String :=
  (if threatLevel = "HIGH" ∨ threatLevel = "CRITICAL" then
    ["Block IP " ++ ip ++ " immediately at the firewall level."] else [])
  ++ (if attackPattern = "BRUTE_FORCE" then
    ["Enable account lockout policies and consider fail2ban.",
     "Disable password authentication and enforce SSH key-based login."]
  else if attackPattern = "RECONNAISSANCE" then
    ["Review exposed HTTP endpoints and remove unnecessary server banners.",
     "Enable a Web Application Firewall (WAF)."]
  else
    ["Investigate the source IP and review related logs."])
  ++ (if threatLevel = "CRITICAL" then
    ["Escalate to the incident response team."] else [])

/-- `AttackAnalyzer.analyze_attack` (src/analyzer/analyzer.py:51-72):
increments the per-IP and per-type counters, reads the post-increment
per-IP count as `history`, classifies, bumps the threat counter, and
returns the analysis dict together with the updated state. -/
def analyzeAttack (s : AnalyzerState) (e : EventA) : Analysis × AnalyzerState :=
  let attackerIp := e.attackerIp.getD "unknown"
  let attackType := e.attackType.getD "UNKNOWN"
  let attackCounts := bump s.attackCounts attackerIp
  let typeCounts := bump s.typeCounts attackType
  let history := lookup0 attackCounts attackerIp
  let threatLevel := computeThreatLevel history attackType
  let attackPattern := detectPattern attackType
  let recommendations := buildRecommendations threatLevel attackPattern attackerIp
  let threatCounts := bump s.threatCounts threatLevel
  (⟨threatLevel, attackPattern, recommendations⟩,
   ⟨attackCounts, typeCounts, threatCounts⟩)

/-- The dictionary returned by `get_statistics`; `top_attacking_ips` keeps
(ip, count) pairs. -/
structure Statistics where
  attackCountsByType : List (String × Nat)
  topAttackingIps : List (String × Nat)
  threatDistribution : List (String × Nat)
  totalAttacks : Nat
deriving Repr, DecidableEq

/-- `AttackAnalyzer.get_statistics` (src/analyzer/analyzer.py:74-87):
`total_attacks` is `sum(type_counts.values())`; `top_attacking_ips` is the
stable sort of `_attack_counts.items()` by count descending, truncated
to 10. -/
def getStatistics (s : AnalyzerState) : Statistics :=
  { attackCountsByType := s.typeCounts
    topAttackingIps := (s.attackCounts.mergeSort (fun a b => b.2 ≤ a.2)).take 10
    threatDistribution := s.threatCounts
    totalAttacks := (s.typeCounts.map Prod.snd).sum }

/-- State after the same event has been analyzed `n` times, starting from a
fresh analyzer. -/
def analyzeN (e : EventA) : Nat → AnalyzerState
  | 0 => initState
  | n + 1 => (analyzeAttack (analyzeN e n) e).2

/-- Analysis dict returned for the k-th consecutive occurrence of event `e`
(1-indexed) on a fresh analyzer. -/
def kthAnalysis (e : EventA) (k : Nat) : Analysis :=
  (analyzeAttack (analyzeN e (k - 1)) e).1

end Analyzer

namespace DB

/-- `_ALLOWED_FILTER_COLS` in src/storage/database.py. -/
def ALLOWED_FILTER_COLS : List String :=
  ["honeypot_type", "attack_type", "attacker_ip", "threat_level"]

/-- One row of the `attack_events` table. -/
structure AttackRow where
  id : Nat
  timestamp : String
  attackerIp : String
  attackerPort : Int
  honeypotType : String
  attackType : String
  rawData : String
  threatLevel : String
  attackPattern : String
deriving Repr, DecidableEq

/-- The event dict passed to `record_attack`: every key may be absent, and
`record_attack` substitutes a default via `.get`. -/
structure EventDict where
  timestamp : Option String
  attackerIp : Option String
  attackerPort : Option Int
  honeypotType : Option String
  attackType : Option String
  rawData : Option String
  threatLevel : Option String
  attackPattern : Option String
deriving Repr, DecidableEq

/-- One row of the `alerts` table; `attack_id` is nullable. -/
structure AlertRow where
  id : Nat
  timestamp : String
  attackerIp : String
  alertType : String
  detail : String
  attackId : Option Nat
deriving Repr, DecidableEq

/-- The alert dict passed to `record_alert`, all keys optional. -/
structure AlertDict where
  timestamp : Option String
  attackerIp : Option String
  alertType : Option String
  detail : Option String
  attackId : Option Nat
deriving Repr, DecidableEq

/-- The `attack_events` and `alerts` tables, each with SQLite's
AUTOINCREMENT counter (the next rowid to be assigned).  A fresh table
starts at rowid 1. -/
structure DbState where
  nextId : Nat
  rows : List AttackRow
  nextAlertId : Nat
  alerts : List AlertRow
deriving Repr, DecidableEq

/-- A freshly created database. -/
def initDb : DbState := ⟨1, [], 1, []⟩

/-- AUTOINCREMENT ids already assigned are strictly below the counter. -/
def WellFormed (s : DbState) : Prop := ∀ r ∈ s.rows, r.id < s.nextId

instance (s : DbState) : Decidable (WellFormed s) := by
  unfold WellFormed; infer_instance

/-- `AttackDatabase.record_attack` (src/storage/database.py:79-102): builds
the bound-parameter row with `.get` defaults (`""` for the text fields,
`0` for the port, `"LOW"` for threat_level, `"UNKNOWN"` for
attack_pattern), inserts it, and returns `cursor.lastrowid`. -/
def recordAttack (s : DbState) (e : EventDict) : Nat × DbState :=
  let row : AttackRow :=
    { id := s.nextId
      timestamp := e.timestamp.getD ""
      attackerIp := e.attackerIp.getD ""
      attackerPort := e.attackerPort.getD 0
      honeypotType := e.honeypotType.getD ""
      attackType := e.attackType.getD ""
      rawData := e.rawData.getD ""
      threatLevel := e.threatLevel.getD "LOW"
      attackPattern := e.attackPattern.getD "UNKNOWN" }
  (s.nextId, { s with nextId := s.nextId + 1, rows := s.rows ++ [row] })

/-- `AttackDatabase.record_alert` (src/storage/database.py:178-195): inserts
an alert row with `.get` defaults and returns the new rowid. -/
def recordAlert (s : DbState) (a : AlertDict) : Nat × DbState :=
  let row : AlertRow :=
    { id := s.nextAlertId
      timestamp := a.timestamp.getD ""
      attackerIp := a.attackerIp.getD ""
      alertType := a.alertType.getD ""
      detail := a.detail.getD ""
      attackId := a.attackId }
  (s.nextAlertId,
   { s with nextAlertId := s.nextAlertId + 1, alerts := s.alerts ++ [row] })

/-- `AttackDatabase.get_attack_by_id` (src/storage/database.py:132-138):
`SELECT * FROM attack_events WHERE id = ?`, `None` when no row matches. -/
def getAttackById (s : DbState) (attackId : Nat) : Option AttackRow :=
  s.rows.find? (fun r => r.id = attackId)

/-- The SQL predicate `col = val` for one allowed filter column. -/
def rowMatches (r : AttackRow) (col val : String) : Bool :=
  if col = "honeypot_type" then r.honeypotType = val
  else if col = "attack_type" then r.attackType = val
  else if col = "attacker_ip" then r.attackerIp = val
  else if col = "threat_level" then r.threatLevel = val
  else false

/-- `AttackDatabase.get_attacks` (src/storage/database.py:108-130): iterates
the filters dict, raising `ValueError` at the first column outside
`_ALLOWED_FILTER_COLS` before any SQL executes; otherwise runs
`SELECT * ... WHERE col1 = ? AND ... ORDER BY id DESC LIMIT ? OFFSET ?`.
The read leaves the database state untouched. -/
def getAttacks (s : DbState) (limit offset : Nat)
    (filters : List (String × String)) : Except String (List AttackRow) :=
  match filters.find? (fun kv => ¬ kv.1 ∈ ALLOWED_FILTER_COLS) with
  | some kv => .error ("Filter column " ++ kv.1 ++ " is not allowed")
  | none =>
    let matching := s.rows.filter (fun r => filters.all (fun kv => rowMatches r kv.1 kv.2))
    .ok ((((matching.mergeSort (fun a b => b.id ≤ a.id)).drop offset).take limit))

/-- `AttackDatabase.record_attack` folded over a list of events, collecting
the returned rowids in call order. -/
def recordAll (s : DbState) : List EventDict → List Nat × DbState
  | [] => ([], s)
  | e :: es =>
    let r := recordAttack s e
    let rest := recordAll r.2 es
    (r.1 :: rest.1, rest.2)

end DB

namespace PyStr

/-- Line-break characters recognised by Python `str.splitlines()`. -/
def LINE_BREAKS : List Char :=
  ['\n', '\r', '\x0b', '\x0c', '\x1c', '\x1d', '\x1e', '\x85', ' ', ' ']

def isLineBreak (c : Char) : Bool := c ∈ LINE_BREAKS

/-- Worker for `splitLines`: `cur` is the current line reversed. A trailing
line break does not open a new (empty) line, matching Python. -/
def splitLinesGo : List Char → List Char → List (List Char)
  | [], cur => [cur.reverse]
  | '\r' :: '\n' :: rest, cur =>
    match rest with
    | [] => [cur.reverse]
    | _ => cur.reverse :: splitLinesGo rest []
  | c :: rest, cur =>
    if isLineBreak c then
      match rest with
      | [] => [cur.reverse]
      | _ => cur.reverse :: splitLinesGo rest []
    else splitLinesGo rest (c :: cur)

/-- Python `str.splitlines()`; the empty string yields no lines. -/
def splitLines (s : List Char) : List (List Char) :=
  match s with
  | [] => []
  | _ => splitLinesGo s []

/-- Worker for `splitWs`. -/
def splitWsGo : List Char → List Char → List (List Char)
  | [], cur => if cur.isEmpty then [] else [cur.reverse]
  | c :: rest, cur =>
    if isPyWhitespace c then
      if cur.isEmpty then splitWsGo rest [] else cur.reverse :: splitWsGo rest []
    else splitWsGo rest (c :: cur)

/-- Python `str.split()` with no argument: split on whitespace runs,
discarding empty tokens. -/
def splitWs (s : List Char) : List (List Char) := splitWsGo s []

end PyStr

namespace Honeypot

/-- `_DANGEROUS_KEYWORDS` in src/honeypot/base.py (note the trailing space
in the netcat entry). -/
def DANGEROUS_KEYWORDS : List (List Char) :=
  ["wget", "curl", "chmod", "rm -rf", "bash", "nc ", "python", "perl"].map String.toList

/-- One character's expansion under `_sanitize` (src/honeypot/base.py:12-20).
The five `str.replace` passes run left to right and no entity they introduce
contains a character replaced by a later pass, so the composite acts
independently on each input character. -/
def sanitizeChar (c : Char) : List Char :=
  if c = '&' then "&amp;".toList
  else if c = '<' then "&lt;".toList
  else if c = '>' then "&gt;".toList
  else if c = '"' then "&quot;".toList
  else if c = '\'' then "&#x27;".toList
  else [c]

/-- `_sanitize` in src/honeypot/base.py. -/
def sanitize (s : List Char) : List Char := (s.map sanitizeChar).flatten

/-- `any(kw in data_lower for kw in _DANGEROUS_KEYWORDS)` with
`data_lower = data.lower()` (src/honeypot/base.py:99-101). -/
def hasDangerous (data : List Char) : Bool :=
  DANGEROUS_KEYWORDS.any (fun kw => PyStr.containsSub (PyStr.lower data) kw)

/-- The alert branch of `BaseHoneypot.log_attack` (src/honeypot/base.py:99-116):
`some alert_type` when an alert is recorded, `none` otherwise. -/
def alertDecision (threatLevel : String) (data : List Char) : Option String :=
  if threatLevel = "HIGH" ∨ threatLevel = "CRITICAL" ∨ hasDangerous data = true then
    some (if hasDangerous data then "DANGEROUS_COMMAND" else "HIGH_THREAT")
  else none

/-- The event dict built and returned by `BaseHoneypot.log_attack`. -/
structure LoggedEvent where
  timestamp : String
  attackerIp : String
  attackerPort : Int
  honeypotType : String
  attackType : String
  rawData : List Char
  threatLevel : String
  attackPattern : String
  id : Nat
deriving Repr, DecidableEq

/-- `BaseHoneypot.log_attack` (src/honeypot/base.py:70-116): sanitizes the
data, runs the analyzer (its result keys are always present), records the
event, then raises an alert when the threat level is HIGH/CRITICAL or a
dangerous keyword occurs in the lowercased raw data.  The wall-clock
timestamp is a parameter.  Returns the event, the alert type recorded (if
any), and the updated analyzer and database states. -/
def logAttack (timestamp : String) (az : Analyzer.AnalyzerState) (db : DB.DbState)
    (honeypotType : String) (attackerIp : String) (attackerPort : Int)
    (data : List Char) (attackType : String) :
    LoggedEvent × Option String × Analyzer.AnalyzerState × DB.DbState :=
  let rawData := sanitize data
  let ar := Analyzer.analyzeAttack az ⟨some attackerIp, some attackType⟩
  let analysis := ar.1
  let rec1 := DB.recordAttack db
    { timestamp := some timestamp
      attackerIp := some attackerIp
      attackerPort := some attackerPort
      honeypotType := some honeypotType
      attackType := some attackType
      rawData := some ⟨rawData⟩
      threatLevel := some analysis.threatLevel
      attackPattern := some analysis.attackPattern }
  let event : LoggedEvent :=
    { timestamp := timestamp
      attackerIp := attackerIp
      attackerPort := attackerPort
      honeypotType := honeypotType
      attackType := attackType
      rawData := rawData
      threatLevel := analysis.threatLevel
      attackPattern := analysis.attackPattern
      id := rec1.1 }
  let alert := alertDecision analysis.threatLevel data
  let db1 := match alert with
    | none => rec1.2
    | some alertType =>
      (DB.recordAlert rec1.2
        { timestamp := some timestamp
          attackerIp := some attackerIp
          alertType := some alertType
          detail := some ("threat_level=" ++ analysis.threatLevel
            ++ " attack_type=" ++ attackType
            ++ " data=" ++ String.mk (rawData.take 200))
          attackId := some rec1.1 }).2
  (event, alert, ar.2, db1)

end Honeypot

namespace Ftp

/-- `_BANNER` in src/honeypot/ftp_honeypot.py. -/
def BANNER : List Char := "220 FTP Server Ready\r\n".toList

/-- `_USER_OK` in src/honeypot/ftp_honeypot.py. -/
def USER_OK : List Char := "331 Password required\r\n".toList

/-- `_PASS_FAIL` in src/honeypot/ftp_honeypot.py. -/
def PASS_FAIL : List Char := "530 Login incorrect\r\n".toList

/-- `_GENERIC_ERR` in src/honeypot/ftp_honeypot.py. -/
def GENERIC_ERR : List Char := "500 Command not understood\r\n".toList

/-- The attack type string `FTPHoneypot._handle_client` logs with. -/
def FTP_ATTACK_TYPE : String := "FTP_BRUTE_FORCE"

/-- Outcome of the per-connection command loop: captured username and
password, all bytes sent to the client, and the number of `recv` turns. -/
structure Session where
  username : List Char
  password : List Char
  replies : List (List Char)
  reads : Nat
deriving Repr, DecidableEq

/-- The `for _ in range(4)` loop of `FTPHoneypot._handle_client`
(src/honeypot/ftp_honeypot.py:65-96) over the list of received chunks.
An empty chunk models `recv` returning no data (`if not data: break`);
exhausting the list models a client that sends nothing more. -/
def handleLoop : Nat → List (List Char) → List Char → List Char →
    List (List Char) → Nat → Session
  | 0, _, u, p, rs, n => ⟨u, p, rs, n⟩
  | _ + 1, [], u, p, rs, n => ⟨u, p, rs, n⟩
  | fuel + 1, d :: rest, u, p, rs, n =>
    if d.isEmpty then ⟨u, p, rs, n + 1⟩
    else
      let line := PyStr.strip d
      let up := PyStr.upper line
      if PyStr.startsWith up "USER".toList then
        handleLoop fuel rest (PyStr.strip (line.drop 4)) p (rs ++ [USER_OK]) (n + 1)
      else if PyStr.startsWith up "PASS".toList then
        ⟨u, PyStr.strip (line.drop 4), rs ++ [PASS_FAIL], n + 1⟩
      else
        handleLoop fuel rest u p (rs ++ [GENERIC_ERR]) (n + 1)

/-- `FTPHoneypot._handle_client` up to the `log_attack` call: sends the
banner, runs the command loop, and builds
`raw_data = f"USER=\x7busername\x7d PASS=\x7bpassword\x7d"`. -/
def handleClient (chunks : List (List Char)) : Session × List Char :=
  let s := handleLoop 4 chunks [] [] [BANNER] 0
  (s, "USER=".toList ++ s.username ++ " PASS=".toList ++ s.password)

end Ftp

namespace Http

/-- `_HTTP_METHODS` in src/honeypot/http_honeypot.py. -/
def HTTP_METHODS : List (List Char) :=
  ["GET", "POST", "PUT", "DELETE", "HEAD", "OPTIONS", "PATCH", "TRACE",
   "CONNECT"].map String.toList

/-- The attack type string `HTTPHoneypot._handle_client` logs with. -/
def HTTP_ATTACK_TYPE : String := "HTTP_PROBE"

/-- `line.split(":", 1)` restricted to lines with `":" in line`: the part
before the first colon and the part after it. -/
def splitFirstColon (line : List Char) : Option (List Char × List Char) :=
  let pre := line.takeWhile (fun c => ¬ c = ':')
  if pre.length = line.length then none
  else some (pre, line.drop (pre.length + 1))

/-- Python-dict insertion: an existing key keeps its position and gets the
new value; a new key is appended. -/
def insertReplace : List (List Char × List Char) → List Char → List Char →
    List (List Char × List Char)
  | [], k, v => [(k, v)]
  | (k0, v0) :: rest, k, v =>
    if k0 = k then (k0, v) :: rest else (k0, v0) :: insertReplace rest k v

/-- The header dict comprehension of `_parse_request`
(src/honeypot/http_honeypot.py:103-107): over `lines[1:]`, keeping lines
containing a colon, stripping key and value, later lines overwriting
earlier values for the same key. -/
def parseHeaders (ls : List (List Char)) : List (List Char × List Char) :=
  ls.foldl
    (fun acc line =>
      match splitFirstColon line with
      | none => acc
      | some kv => insertReplace acc (PyStr.strip kv.1) (PyStr.strip kv.2))
    []

/-- Result of `HTTPHoneypot._parse_request`: either the early
`if not lines: return raw` path, or the extracted method, path and header
mapping that the returned summary string is formatted from. -/
inductive ParseResult where
  | raw (s : List Char)
  | parsed (method : List Char) (path : List Char)
      (headers : List (List Char × List Char))
deriving Repr, DecidableEq

/-- `HTTPHoneypot._parse_request` (src/honeypot/http_honeypot.py:91-108):
`method = parts[0] if parts else "UNKNOWN"`, downgraded to `"UNKNOWN"`
when not in `_HTTP_METHODS`; `path = parts[1] if len(parts) > 1 else "/"`;
headers from the colon-delimited lines after the request line. -/
def parseRequest (raw : List Char) : ParseResult :=
  match PyStr.splitLines raw with
  | [] => .raw raw
  | line0 :: restLines =>
    let parts := PyStr.splitWs line0
    let m0 := match parts with
      | [] => "UNKNOWN".toList
      | t :: _ => t
    let method := if m0 ∈ HTTP_METHODS then m0 else "UNKNOWN".toList
    let path := match parts with
      | _ :: p :: _ => p
      | _ => "/".toList
    .parsed method path (parseHeaders restLines)

end Http

namespace Analyzer

theorem lookup0_bump_self (m : List (String × Nat)) (k : String) :
    lookup0 (bump m k) k = lookup0 m k + 1 := by
  induction m with
  | nil => simp [bump, lookup0]
  | cons p rest ih =>
    obtain ⟨k0, v⟩ := p
    by_cases h : k0 = k <;> simp [bump, lookup0, h, ih]

theorem lookup0_eq_zero_of_not_mem (m : List (String × Nat)) (k : String)
    (h : k ∉ m.map Prod.fst) : lookup0 m k = 0 := by
  induction m with
  | nil => rfl
  | cons p rest ih =>
    obtain ⟨k0, v⟩ := p
    simp only [List.map_cons, List.mem_cons, not_or] at h
    have hne : k0 ≠ k := fun hh => h.1 hh.symm
    simp [lookup0, hne, ih h.2]

theorem analyzeAttack_attackCounts (s : AnalyzerState) (e : EventA) :
    (analyzeAttack s e).2.attackCounts = bump s.attackCounts (e.attackerIp.getD "unknown") :=
  rfl

theorem analyzeAttack_threatLevel (s : AnalyzerState) (e : EventA) :
    (analyzeAttack s e).1.threatLevel =
      computeThreatLevel
        (lookup0 s.attackCounts (e.attackerIp.getD "unknown") + 1)
        (e.attackType.getD "UNKNOWN") := by
  simp [analyzeAttack, lookup0_bump_self]

theorem analyzeN_count (e : EventA) (n : Nat) :
    lookup0 (analyzeN e n).attackCounts (e.attackerIp.getD "unknown") = n := by
  induction n with
  | zero => rfl
  | succ n ih =>
    simp [analyzeN, analyzeAttack_attackCounts, lookup0_bump_self, ih]

theorem kthAnalysis_threatLevel (e : EventA) (k : Nat) (hk : 1 ≤ k) :
    (kthAnalysis e k).threatLevel =
      computeThreatLevel k (e.attackType.getD "UNKNOWN") := by
  unfold kthAnalysis
  rw [analyzeAttack_threatLevel, analyzeN_count]
  congr 1
  omega

end Analyzer

/-- C1: the threat level returned by `analyze_attack` is exactly
`CRITICAL` when the post-increment per-IP count is ≥ 25, else `HIGH` when
≥ 10, else `MEDIUM` when ≥ 3 or the attack type is a brute-force type,
else `LOW`; and for any source IP, the k-th of k consecutive brute-force
events yields `MEDIUM` for 3 ≤ k < 10, `HIGH` for 10 ≤ k < 25 and
`CRITICAL` for k ≥ 25. -/
theorem threat_level_rule :
    (∀ (s : Analyzer.AnalyzerState) (e : Analyzer.EventA),
      (Analyzer.analyzeAttack s e).1.threatLevel =
        (if 25 ≤ Analyzer.lookup0 s.attackCounts (e.attackerIp.getD "unknown") + 1 then
          "CRITICAL"
        else if 10 ≤ Analyzer.lookup0 s.attackCounts (e.attackerIp.getD "unknown") + 1 then
          "HIGH"
        else if 3 ≤ Analyzer.lookup0 s.attackCounts (e.attackerIp.getD "unknown") + 1
            ∨ (e.attackType.getD "UNKNOWN") ∈ Analyzer.BRUTE_FORCE_TYPES then
          "MEDIUM"
        else "LOW"))
    ∧ (∀ (ip ty : String) (k : Nat), ty ∈ Analyzer.BRUTE_FORCE_TYPES →
        ((3 ≤ k ∧ k < 10 →
            (Analyzer.kthAnalysis ⟨some ip, some ty⟩ k).threatLevel = "MEDIUM")
        ∧ (10 ≤ k ∧ k < 25 →
            (Analyzer.kthAnalysis ⟨some ip, some ty⟩ k).threatLevel = "HIGH")
        ∧ (25 ≤ k →
            (Analyzer.kthAnalysis ⟨some ip, some ty⟩ k).threatLevel = "CRITICAL"))) := by
  constructor
  · intro s e
    rw [Analyzer.analyzeAttack_threatLevel]
    unfold Analyzer.computeThreatLevel Analyzer.CRITICAL_THRESHOLD
      Analyzer.HIGH_THRESHOLD Analyzer.MEDIUM_THRESHOLD
    rfl
  · intro ip ty k hty
    refine ⟨fun hk => ?_, fun hk => ?_, fun hk => ?_⟩ <;>
      rw [Analyzer.kthAnalysis_threatLevel _ _ (by omega)] <;>
      unfold Analyzer.computeThreatLevel Analyzer.CRITICAL_THRESHOLD
        Analyzer.HIGH_THRESHOLD Analyzer.MEDIUM_THRESHOLD <;>
      split_ifs <;> first | rfl | (exfalso; omega)

/-- Witness for C1 at concrete inputs: the 5th consecutive
`FTP_BRUTE_FORCE` event from one IP is classified `MEDIUM`. -/
theorem threat_level_rule_witness :
    (Analyzer.kthAnalysis ⟨some "9.9.9.9", some "FTP_BRUTE_FORCE"⟩ 5).threatLevel
      = "MEDIUM" :=
  (threat_level_rule.2 "9.9.9.9" "FTP_BRUTE_FORCE" 5 (by decide)).1 (by omega)

/-- C6: `analyze_attack` is total — an event with an absent attack type
and a source IP the analyzer has never counted starts from a zero count
and is classified with the neutral default (threat level `LOW`, the
attack type having defaulted to `"UNKNOWN"`) instead of raising. -/
theorem analyze_never_blocks :
    ∀ (s : Analyzer.AnalyzerState) (e : Analyzer.EventA),
      e.attackType = none →
      (e.attackerIp.getD "unknown") ∉ s.attackCounts.map Prod.fst →
      Analyzer.lookup0 s.attackCounts (e.attackerIp.getD "unknown") = 0 ∧
      (Analyzer.analyzeAttack s e).1.threatLevel = "LOW" := by
  intro s e hty hip
  have h0 := Analyzer.lookup0_eq_zero_of_not_mem _ _ hip
  refine ⟨h0, ?_⟩
  rw [Analyzer.analyzeAttack_threatLevel, h0, hty]
  decide

/-- Witness for C6: a fully absent event dict on a fresh analyzer. -/
theorem analyze_never_blocks_witness :
    Analyzer.lookup0 Analyzer.initState.attackCounts
        ((none : Option String).getD "unknown") = 0 ∧
    (Analyzer.analyzeAttack Analyzer.initState ⟨none, none⟩).1.threatLevel
      = "LOW" :=
  analyze_never_blocks Analyzer.initState ⟨none, none⟩ rfl (by decide)

/-- C9: in every analyzer state, `get_statistics().total_attacks` equals
the sum of the values of the returned `attack_counts_by_type` mapping. -/
theorem total_attacks_eq_sum :
    ∀ s : Analyzer.AnalyzerState,
      (Analyzer.getStatistics s).totalAttacks =
        ((Analyzer.getStatistics s).attackCountsByType.map Prod.snd).sum :=
  fun _ => rfl

namespace DB

theorem recordAttack_roundTrip (s : DbState) (e : EventDict) (hwf : WellFormed s) :
    getAttackById (recordAttack s e).2 (recordAttack s e).1 =
      some { id := (recordAttack s e).1
             timestamp := e.timestamp.getD ""
             attackerIp := e.attackerIp.getD ""
             attackerPort := e.attackerPort.getD 0
             honeypotType := e.honeypotType.getD ""
             attackType := e.attackType.getD ""
             rawData := e.rawData.getD ""
             threatLevel := e.threatLevel.getD "LOW"
             attackPattern := e.attackPattern.getD "UNKNOWN" } := by
  unfold getAttackById recordAttack
  rw [List.find?_append]
  have h1 : s.rows.find? (fun r => r.id = s.nextId) = none := by
    rw [List.find?_eq_none]
    intro r hr
    simpa using Nat.ne_of_lt (hwf r hr)
  simp [h1, List.find?]

theorem recordAll_ids (es : List EventDict) (s : DbState) :
    (recordAll s es).1 = List.range' s.nextId es.length := by
  induction es generalizing s with
  | nil => rfl
  | cons e es ih =>
    show s.nextId :: (recordAll _ es).1 = List.range' s.nextId (es.length + 1)
    rw [List.range'_succ s.nextId es.length 1, ih]
    rfl

end DB

/-- C2: recording a fully-populated event and fetching the returned id
gives back exactly the event's fields plus the assigned id. -/
theorem record_then_get_round_trip :
    ∀ (s : DB.DbState) (ts ip ht aty rd tl ap : String) (pt : Int),
      DB.WellFormed s →
      DB.getAttackById
          (DB.recordAttack s
            ⟨some ts, some ip, some pt, some ht, some aty, some rd, some tl, some ap⟩).2
          (DB.recordAttack s
            ⟨some ts, some ip, some pt, some ht, some aty, some rd, some tl, some ap⟩).1
        = some ⟨(DB.recordAttack s
            ⟨some ts, some ip, some pt, some ht, some aty, some rd, some tl, some ap⟩).1,
            ts, ip, pt, ht, aty, rd, tl, ap⟩ := by
  intro s ts ip ht aty rd tl ap pt hwf
  exact DB.recordAttack_roundTrip s _ hwf

/-- Witness for C2 on a fresh database and a concrete event. -/
theorem record_then_get_round_trip_witness :
    DB.getAttackById
        (DB.recordAttack DB.initDb
          ⟨some "2024-01-01T00:00:00", some "1.2.3.4", some 5050, some "SSH",
           some "SSH_BRUTE_FORCE", some "root:admin", some "MEDIUM",
           some "BRUTE_FORCE"⟩).2
        (DB.recordAttack DB.initDb
          ⟨some "2024-01-01T00:00:00", some "1.2.3.4", some 5050, some "SSH",
           some "SSH_BRUTE_FORCE", some "root:admin", some "MEDIUM",
           some "BRUTE_FORCE"⟩).1
      = some ⟨1, "2024-01-01T00:00:00", "1.2.3.4", 5050, "SSH",
          "SSH_BRUTE_FORCE", "root:admin", "MEDIUM", "BRUTE_FORCE"⟩ :=
  record_then_get_round_trip DB.initDb "2024-01-01T00:00:00" "1.2.3.4" "SSH"
    "SSH_BRUTE_FORCE" "root:admin" "MEDIUM" "BRUTE_FORCE" 5050
    (by intro r hr; simp [DB.initDb] at hr)

/-- C10: `record_attack` succeeds on any partial event dict; every absent
field is stored as its fixed default (empty string for the text fields,
0 for the port, LOW for threat_level, UNKNOWN for attack_pattern). -/
theorem record_attack_defaults :
    ∀ (s : DB.DbState) (e : DB.EventDict), DB.WellFormed s →
      DB.getAttackById (DB.recordAttack s e).2 (DB.recordAttack s e).1 =
        some { id := (DB.recordAttack s e).1
               timestamp := e.timestamp.getD ""
               attackerIp := e.attackerIp.getD ""
               attackerPort := e.attackerPort.getD 0
               honeypotType := e.honeypotType.getD ""
               attackType := e.attackType.getD ""
               rawData := e.rawData.getD ""
               threatLevel := e.threatLevel.getD "LOW"
               attackPattern := e.attackPattern.getD "UNKNOWN" } :=
  fun s e hwf => DB.recordAttack_roundTrip s e hwf

/-- Witness for C10: the fully-absent event dict stores all defaults. -/
theorem record_attack_defaults_witness :
    DB.getAttackById
        (DB.recordAttack DB.initDb ⟨none, none, none, none, none, none, none, none⟩).2
        (DB.recordAttack DB.initDb ⟨none, none, none, none, none, none, none, none⟩).1
      = some ⟨1, "", "", 0, "", "", "", "LOW", "UNKNOWN"⟩ :=
  record_attack_defaults DB.initDb ⟨none, none, none, none, none, none, none, none⟩
    (by intro r hr; simp [DB.initDb] at hr)

/-- C5: any sequence of `record_attack` calls returns one id per call, and
the ids are strictly increasing in call order — in particular pairwise
distinct, with zero duplicates. -/
theorem record_attack_ids_strictly_increasing :
    ∀ (s : DB.DbState) (es : List DB.EventDict),
      (DB.recordAll s es).1.length = es.length ∧
      List.Pairwise (· < ·) (DB.recordAll s es).1 ∧
      (DB.recordAll s es).1.Nodup := by
  intro s es
  rw [DB.recordAll_ids]
  exact ⟨List.length_range' _ _ _, List.pairwise_lt_range' _ _ 1 (by omega),
    List.nodup_range' _ _⟩

/-- C4: `get_attacks` rejects any filters dict containing a key outside
the allow-list with a validation error before any query runs (the read
takes the state as input and never produces a new one, so no state is
mutated); with only allowed keys it succeeds and every returned row
satisfies each filter equality. -/
theorem get_attacks_filter_validation :
    ∀ (s : DB.DbState) (limit offset : Nat) (filters : List (String × String)),
      ((∃ kv ∈ filters, kv.1 ∉ DB.ALLOWED_FILTER_COLS) →
        ∃ msg, DB.getAttacks s limit offset filters = Except.error msg) ∧
      ((∀ kv ∈ filters, kv.1 ∈ DB.ALLOWED_FILTER_COLS) →
        ∃ rs, DB.getAttacks s limit offset filters = Except.ok rs ∧
          ∀ r ∈ rs, ∀ kv ∈ filters, DB.rowMatches r kv.1 kv.2 = true) := by
  intro s limit offset filters
  constructor
  · rintro ⟨kv, hmem, hcol⟩
    unfold DB.getAttacks
    split
    · exact ⟨_, rfl⟩
    · rename_i hf
      rw [List.find?_eq_none] at hf
      have := hf kv hmem
      simp only [decide_eq_true_eq, Decidable.not_not] at this
      exact absurd this hcol
  · intro hall
    unfold DB.getAttacks
    split
    · rename_i kv2 hf
      have hp := List.find?_some hf
      have hmem := List.mem_of_find?_eq_some hf
      simp only [decide_eq_true_eq] at hp
      exact absurd (hall kv2 hmem) hp
    · refine ⟨_, rfl, ?_⟩
      intro r hr kv hkv
      have h1 : r ∈ (s.rows.filter
          (fun r => filters.all (fun kv => DB.rowMatches r kv.1 kv.2))).mergeSort
          (fun a b => b.id ≤ a.id) :=
        List.mem_of_mem_drop (List.mem_of_mem_take hr)
      have h2 := List.mem_filter.mp (List.mem_mergeSort.mp h1)
      exact List.all_eq_true.mp h2.2 kv hkv

/-- Witness for C4: a disallowed key is rejected on a fresh store; an
allowed-key query succeeds with all rows matching. -/
theorem get_attacks_filter_validation_witness :
    (∃ msg, DB.getAttacks DB.initDb 100 0 [("raw_data", "x")] = Except.error msg) ∧
    (∃ rs, DB.getAttacks DB.initDb 100 0 [("attacker_ip", "1.2.3.4")] = Except.ok rs ∧
      ∀ r ∈ rs, ∀ kv ∈ [("attacker_ip", "1.2.3.4")],
        DB.rowMatches r kv.1 kv.2 = true) :=
  ⟨(get_attacks_filter_validation DB.initDb 100 0 [("raw_data", "x")]).1
      ⟨("raw_data", "x"), by decide, by decide⟩,
   (get_attacks_filter_validation DB.initDb 100 0 [("attacker_ip", "1.2.3.4")]).2
      (by decide)⟩

namespace PyStr

theorem containsSub_iff_infix (s sub : List Char) :
    containsSub s sub = true ↔ sub <:+: s := by
  induction s with
  | nil =>
    simp [containsSub, List.isEmpty_iff, List.infix_nil]
  | cons c rest ih =>
    simp only [containsSub, Bool.or_eq_true, List.isPrefixOf_iff_prefix, ih,
      List.infix_cons_iff]

end PyStr

namespace Honeypot

theorem hasDangerous_of_wget (data w : List Char) (hw : w <:+: data)
    (hl : PyStr.lower w = "wget".toList) : hasDangerous data = true := by
  unfold hasDangerous
  rw [List.any_eq_true]
  refine ⟨"wget".toList, by decide, ?_⟩
  rw [PyStr.containsSub_iff_infix, ← hl]
  exact hw.map Char.toLower

theorem logAttack_alerts (ts : String) (az : Analyzer.AnalyzerState)
    (db : DB.DbState) (hp ip : String) (port : Int) (data : List Char)
    (aty : String) :
    (logAttack ts az db hp ip port data aty).2.2.2.alerts.map DB.AlertRow.alertType =
      db.alerts.map DB.AlertRow.alertType ++
        (alertDecision (logAttack ts az db hp ip port data aty).1.threatLevel
          data).toList := by
  unfold logAttack
  cases h : alertDecision
      (Analyzer.analyzeAttack az ⟨some ip, some aty⟩).1.threatLevel data with
  | none => simp [h, DB.recordAttack]
  | some t => simp [h, DB.recordAttack, DB.recordAlert]

end Honeypot

/-- C3: an alert is recorded iff the threat level is HIGH or CRITICAL or
the lowercased raw payload contains a keyword from `_DANGEROUS_KEYWORDS`;
its type is DANGEROUS_COMMAND when the keyword path fired and HIGH_THREAT
otherwise; any payload containing "wget" in any case yields
DANGEROUS_COMMAND whatever the threat level; and `log_attack` appends
exactly that alert (or none) to the alerts table. -/
theorem alert_trigger_rule :
    (∀ (tl : String) (data : List Char),
      ((Honeypot.alertDecision tl data).isSome ↔
        (tl = "HIGH" ∨ tl = "CRITICAL" ∨ Honeypot.hasDangerous data = true))
      ∧ (Honeypot.hasDangerous data = true →
          Honeypot.alertDecision tl data = some "DANGEROUS_COMMAND")
      ∧ (Honeypot.hasDangerous data = false →
          (Honeypot.alertDecision tl data).isSome →
          Honeypot.alertDecision tl data = some "HIGH_THREAT")
      ∧ (∀ w : List Char, w <:+: data → PyStr.lower w = "wget".toList →
          Honeypot.alertDecision tl data = some "DANGEROUS_COMMAND"))
    ∧ (∀ (ts : String) (az : Analyzer.AnalyzerState) (db : DB.DbState)
        (hp ip : String) (port : Int) (data : List Char) (aty : String),
        (Honeypot.logAttack ts az db hp ip port data aty).2.2.2.alerts.map
            DB.AlertRow.alertType =
          db.alerts.map DB.AlertRow.alertType ++
            (Honeypot.alertDecision
              (Honeypot.logAttack ts az db hp ip port data aty).1.threatLevel
              data).toList) := by
  constructor
  · intro tl data
    refine ⟨?_, ?_, ?_, ?_⟩
    · unfold Honeypot.alertDecision
      split <;> rename_i h
      · simpa using h
      · simpa [not_or, Bool.not_eq_true] using h
    · intro hd
      unfold Honeypot.alertDecision
      simp [hd]
    · intro hd hsome
      unfold Honeypot.alertDecision at hsome ⊢
      split at hsome <;> rename_i h
      · rw [if_pos h]
        simp [hd]
      · simp at hsome
    · intro w hw hl
      have hd := Honeypot.hasDangerous_of_wget data w hw hl
      unfold Honeypot.alertDecision
      simp [hd]
  · exact Honeypot.logAttack_alerts

/-- Witness for C3: the payload "run WgEt now" with threat level LOW
produces a DANGEROUS_COMMAND alert. -/
theorem alert_trigger_rule_witness :
    Honeypot.alertDecision "LOW" "run WgEt now".toList
      = some "DANGEROUS_COMMAND" :=
  ((alert_trigger_rule.1 "LOW" "run WgEt now".toList).2.2.2
    "WgEt".toList (by decide) (by decide))

/-- C7: an FTP session receiving "USER bob" then "PASS hunter2" captures
the username at the USER line (replying "331 Password required") and the
password at the PASS line (replying "530 Login incorrect" and ending the
exchange) within 2 ≤ 4 read turns — even if further commands were queued —
and the logged event carries raw payload "USER=bob PASS=hunter2" and
attack type FTP_BRUTE_FORCE. -/
theorem ftp_user_pass_capture :
    (Ftp.handleClient ["USER bob".toList, "PASS hunter2".toList]).1.username
        = "bob".toList
    ∧ (Ftp.handleClient ["USER bob".toList, "PASS hunter2".toList]).1.password
        = "hunter2".toList
    ∧ (Ftp.handleClient ["USER bob".toList, "PASS hunter2".toList]).1.reads = 2
    ∧ (Ftp.handleClient ["USER bob".toList, "PASS hunter2".toList]).1.reads ≤ 4
    ∧ (Ftp.handleClient ["USER bob".toList, "PASS hunter2".toList]).1.replies
        = [Ftp.BANNER, Ftp.USER_OK, Ftp.PASS_FAIL]
    ∧ (Ftp.handleClient ["USER bob".toList, "PASS hunter2".toList]).2
        = "USER=bob PASS=hunter2".toList
    ∧ (Ftp.handleClient
        ["USER bob".toList, "PASS hunter2".toList, "QUIT".toList]).1.reads = 2
    ∧ ∀ (ts : String) (az : Analyzer.AnalyzerState) (db : DB.DbState)
        (ip : String) (port : Int),
        (Honeypot.logAttack ts az db "FTP" ip port
            (Ftp.handleClient ["USER bob".toList, "PASS hunter2".toList]).2
            Ftp.FTP_ATTACK_TYPE).1.rawData = "USER=bob PASS=hunter2".toList
        ∧ (Honeypot.logAttack ts az db "FTP" ip port
            (Ftp.handleClient ["USER bob".toList, "PASS hunter2".toList]).2
            Ftp.FTP_ATTACK_TYPE).1.attackType = "FTP_BRUTE_FORCE" := by
  refine ⟨by decide, by decide, by decide, by decide, by decide, by decide,
    by decide, ?_⟩
  intro ts az db ip port
  exact ⟨rfl, rfl⟩

namespace PyStr

theorem splitLinesGo_ne_nil (l cur : List Char) : splitLinesGo l cur ≠ [] := by
  induction l, cur using PyStr.splitLinesGo.induct <;>
    rw [PyStr.splitLinesGo.eq_def] <;> simp_all

theorem splitLines_ne_nil (s : List Char) (h : s ≠ []) : splitLines s ≠ [] := by
  cases s with
  | nil => exact absurd rfl h
  | cons c rest =>
    show splitLinesGo (c :: rest) [] ≠ []
    exact splitLinesGo_ne_nil _ _

end PyStr

/-- C8 counterexample: on the empty request text `_parse_request` takes the
early `if not lines: return raw` path and echoes the input back — it does
not produce a method/path/headers summary (in particular no defaulted
method `UNKNOWN` with path `/`), so the claim's universal statement fails
at the concrete input `""`. -/
theorem parse_request_empty_counterexample :
    Http.parseRequest [] = Http.ParseResult.raw []
    ∧ Http.ParseResult.raw []
        ≠ Http.ParseResult.parsed "UNKNOWN".toList "/".toList [] :=
  ⟨rfl, by decide⟩

/-- C8 (amended): for every NONEMPTY raw request text, parsing succeeds and
takes the method from the first whitespace token of the request line when
it belongs to `_HTTP_METHODS` and `UNKNOWN` otherwise (also `UNKNOWN` when
the request line has no tokens), the path from the second token with
default `/`, and the headers from the colon-delimited lines after the
request line; the empty text is echoed back unparsed. -/
theorem parse_request_amended :
    ∀ (raw : List Char), raw ≠ [] →
      ∃ line0 rest m p hs,
        PyStr.splitLines raw = line0 :: rest ∧
        Http.parseRequest raw = Http.ParseResult.parsed m p hs ∧
        (PyStr.splitWs line0 = [] → m = "UNKNOWN".toList ∧ p = "/".toList) ∧
        (∀ t ts, PyStr.splitWs line0 = t :: ts →
          m = if t ∈ Http.HTTP_METHODS then t else "UNKNOWN".toList) ∧
        (∀ t, PyStr.splitWs line0 = [t] → p = "/".toList) ∧
        (∀ t q ts, PyStr.splitWs line0 = t :: q :: ts → p = q) ∧
        hs = Http.parseHeaders rest := by
  intro raw hraw
  obtain ⟨line0, rest, hsl⟩ : ∃ l0 r, PyStr.splitLines raw = l0 :: r := by
    cases hs : PyStr.splitLines raw with
    | nil => exact absurd hs (PyStr.splitLines_ne_nil raw hraw)
    | cons a b => exact ⟨a, b, rfl⟩
  have hpr : Http.parseRequest raw = Http.ParseResult.parsed
      (if (match PyStr.splitWs line0 with
            | [] => "UNKNOWN".toList
            | t :: _ => t) ∈ Http.HTTP_METHODS then
        (match PyStr.splitWs line0 with
          | [] => "UNKNOWN".toList
          | t :: _ => t)
      else "UNKNOWN".toList)
      (match PyStr.splitWs line0 with
        | _ :: p :: _ => p
        | _ => "/".toList)
      (Http.parseHeaders rest) := by
    unfold Http.parseRequest
    rw [hsl]
  cases hp : PyStr.splitWs line0 with
  | nil =>
    rw [hp] at hpr
    have hpr2 : Http.parseRequest raw = Http.ParseResult.parsed
        "UNKNOWN".toList "/".toList (Http.parseHeaders rest) := by
      rw [hpr]
      norm_num
    refine ⟨line0, rest, "UNKNOWN".toList, "/".toList, Http.parseHeaders rest,
      hsl, hpr2, fun _ => ⟨rfl, rfl⟩, ?_, fun _ _ => rfl, ?_, rfl⟩
    · intro t ts h
      rw [hp] at h
      cases h
    · intro t q ts h
      rw [hp] at h
      cases h
  | cons t rest2 =>
    cases rest2 with
    | nil =>
      rw [hp] at hpr
      have hpr2 : Http.parseRequest raw = Http.ParseResult.parsed
          (if t ∈ Http.HTTP_METHODS then t else "UNKNOWN".toList)
          "/".toList (Http.parseHeaders rest) := hpr
      refine ⟨line0, rest, _, _, _, hsl, hpr2, ?_, ?_, fun _ _ => rfl, ?_, rfl⟩
      · intro h
        rw [hp] at h
        cases h
      · intro u us h
        rw [hp] at h
        cases h
        rfl
      · intro u q us h
        rw [hp] at h
        cases h
    | cons q rest3 =>
      rw [hp] at hpr
      have hpr2 : Http.parseRequest raw = Http.ParseResult.parsed
          (if t ∈ Http.HTTP_METHODS then t else "UNKNOWN".toList)
          q (Http.parseHeaders rest) := hpr
      refine ⟨line0, rest, _, _, _, hsl, hpr2, ?_, ?_, ?_, ?_, rfl⟩
      · intro h
        rw [hp] at h
        cases h
      · intro u us h
        rw [hp] at h
        cases h
        rfl
      · intro u h
        rw [hp] at h
        cases h
      · intro u v us h
        rw [hp] at h
        cases h
        rfl

/-- Witness for C8 (amended) at a concrete probe request. -/
theorem parse_request_amended_witness :
    ∃ line0 rest m p hs,
      PyStr.splitLines "GET /admin HTTP/1.1\r\nHost: x\r\n".toList
          = line0 :: rest ∧
      Http.parseRequest "GET /admin HTTP/1.1\r\nHost: x\r\n".toList
          = Http.ParseResult.parsed m p hs ∧
      (PyStr.splitWs line0 = [] → m = "UNKNOWN".toList ∧ p = "/".toList) ∧
      (∀ t ts, PyStr.splitWs line0 = t :: ts →
        m = if t ∈ Http.HTTP_METHODS then t else "UNKNOWN".toList) ∧
      (∀ t, PyStr.splitWs line0 = [t] → p = "/".toList) ∧
      (∀ t q ts, PyStr.splitWs line0 = t :: q :: ts → p = q) ∧
      hs = Http.parseHeaders rest :=
  parse_request_amended "GET /admin HTTP/1.1\r\nHost: x\r\n".toList (by decide)
